import Mathlib

/-!
Verification of the weather-prediction core (`src/weather_prediction.py`),
a single-class pipeline: synthetic historical-data generation, cyclical
feature encoding, dual-target model training, multi-step forecasting and
rule-based event classification.

Modelling conventions of the shallow embedding:

* A `Timestamp` is the number of hours since an arbitrary epoch (a
  natural number).  Python's `datetime` accessors `.hour` becomes
  `t % 24`; the calendar accessors `.month` and `.day` (day of month)
  depend only on the day number `t / 24` and are abstracted as section
  parameters `month, dom : ℕ → ℕ`, since no claim depends on the
  concrete Gregorian values.  `strftime(%Y-%m-%d)` renders exactly the
  day number, injectively and monotonically, so a record's date is
  embedded as the day number `t / 24`.
* Real-valued quantities are `ℝ`; `np.sin`/`np.cos` are `Real.sin` /
  `Real.cos`.  `round(x, 1)` is embedded as `round1`.
* The global `np.random` stream is made explicit: an `RNG` value is a
  stream of independent standard-normal draws together with a position;
  `normal mu sigma` consumes one draw.  Code that does not call the
  random source simply passes the `RNG` through unchanged.
* The sklearn `StandardScaler` is a fitted mean/scale pair; its
  `transform` validates fitting (`NotFittedError`) and feature width
  (`ValueError` on `n_features_in_` mismatch) per the sklearn contract,
  then applies `(x - mean) / scale` componentwise.
* `sklearn.train_test_split` with a fixed `random_state` is a
  deterministic function of the sample count, the test ratio and the
  seed; the permutation it draws is abstracted as a section parameter
  `shuffle : ℕ → ℕ → List ℕ` (seed and sample count to index order),
  which captures precisely that the drawn permutation depends on
  nothing else - in particular not on the array contents.
* Python exceptions become `Except`; the bare `except:` in
  `_get_base_temperature` catches every error kind, so the error type
  is an arbitrary `ε`.
-/

namespace WeatherPred

/-- Embedding of `_predict_weather_event` (source lines 139-151): the
five threshold rules in their `if/elif` order, first match wins,
`None` when nothing matches.  Polymorphic over the ordered field so it
can be evaluated on `ℚ` and used on `ℝ` in the forecaster. -/
def predict_weather_event {α : Type} [LinearOrderedField α] (temp humidity : α) :
    Option String :=
  if temp > 35 ∧ humidity < 30 then some "Heat Wave Warning"
  else if humidity > 80 then some "Heavy Rainfall Expected"
  else if temp < 15 then some "Cold Weather Alert"
  else if humidity < 20 then some "Dry Weather Warning"
  else if temp > 30 ∧ humidity > 70 then some "High Humidity Warning"
  else none

/-- The spec's rule table (§4.5), as an ordered list of
(guard, label) pairs. -/
def event_rules {α : Type} [LinearOrderedField α] : List ((α → α → Bool) × String) :=
  [ (fun t h => decide (t > 35) && decide (h < 30), "Heat Wave Warning"),
    (fun _ h => decide (h > 80), "Heavy Rainfall Expected"),
    (fun t _ => decide (t < 15), "Cold Weather Alert"),
    (fun _ h => decide (h < 20), "Dry Weather Warning"),
    (fun t h => decide (t > 30) && decide (h > 70), "High Humidity Warning") ]

/-- First-match evaluation of the spec's rule table: scan the rules in
priority order and return the label of the first rule whose guard
holds, `none` when no rule matches. -/
def classify_first_match {α : Type} [LinearOrderedField α] (temp humidity : α) :
    Option String :=
  (event_rules.find? (fun r => r.1 temp humidity)).map Prod.snd

/-- C1: the classifier evaluates its five threshold rules in strict
priority order with first match winning and no match yielding `none`
(it agrees with first-match evaluation of the spec's ordered rule
table at every input), and the six sample evaluations of the spec
hold. -/
theorem c1_event_classifier_priority :
    (∀ t h : ℚ, predict_weather_event t h = classify_first_match t h) ∧
    predict_weather_event (36 : ℚ) 25 = some "Heat Wave Warning" ∧
    predict_weather_event (20 : ℚ) 85 = some "Heavy Rainfall Expected" ∧
    predict_weather_event (10 : ℚ) 50 = some "Cold Weather Alert" ∧
    predict_weather_event (25 : ℚ) 15 = some "Dry Weather Warning" ∧
    predict_weather_event (31 : ℚ) 75 = some "High Humidity Warning" ∧
    predict_weather_event (20 : ℚ) 50 = none := by
  refine ⟨fun t h => ?_, by decide, by decide, by decide, by decide, by decide, by decide⟩
  by_cases h1 : t > 35 <;> by_cases h2 : h < 30 <;> by_cases h3 : h > 80 <;>
    by_cases h4 : t < 15 <;> by_cases h5 : h < 20 <;> by_cases h6 : t > 30 <;>
    by_cases h7 : h > 70 <;>
    simp [predict_weather_event, classify_first_match, event_rules, List.find?,
      h1, h2, h3, h4, h5, h6, h7]

/-- Timestamps are hours since an arbitrary epoch. -/
abbrev Timestamp := ℕ

section Calendar

variable (month dom : ℕ → ℕ)

/-- Embedding of `_create_features` (source lines 26-36): the 7-element
feature vector `[month, day, hour, sin(2π·month/12), cos(2π·month/12),
sin(2π·day/31), cos(2π·day/31)]` of a timestamp.  `month` and `dom`
are the calendar accessors `date.month` and `date.day`, functions of
the day number `t / 24`; `date.hour` is `t % 24`. -/
noncomputable def create_features (t : Timestamp) : List ℝ :=
  [ (month (t / 24) : ℝ),
    (dom (t / 24) : ℝ),
    ((t % 24 : ℕ) : ℝ),
    Real.sin (2 * Real.pi * (month (t / 24) : ℝ) / 12),
    Real.cos (2 * Real.pi * (month (t / 24) : ℝ) / 12),
    Real.sin (2 * Real.pi * (dom (t / 24) : ℝ) / 31),
    Real.cos (2 * Real.pi * (dom (t / 24) : ℝ) / 31) ]

/-- C4: the feature encoder returns exactly the spec's 7-vector
`[month, day, hour, sin(2π·month/12), cos(2π·month/12),
sin(2π·day/31), cos(2π·day/31)]` in that order, its length is always
7, and it is deterministic: two calls on the same timestamp give
identical vectors (it is a total function of the timestamp alone). -/
theorem c4_feature_encoder (t : Timestamp) :
    create_features month dom t =
      [ (month (t / 24) : ℝ), (dom (t / 24) : ℝ), ((t % 24 : ℕ) : ℝ),
        Real.sin (2 * Real.pi * (month (t / 24) : ℝ) / 12),
        Real.cos (2 * Real.pi * (month (t / 24) : ℝ) / 12),
        Real.sin (2 * Real.pi * (dom (t / 24) : ℝ) / 31),
        Real.cos (2 * Real.pi * (dom (t / 24) : ℝ) / 31) ] ∧
    (create_features month dom t).length = 7 ∧
    create_features month dom t = create_features month dom t :=
  ⟨rfl, rfl, rfl⟩

/-! ### The explicit random stream

`np.random.normal` draws from a global stream; we model the stream as
a function `ℕ → ℝ` of independent standard-normal draws together with
the current position, and `normal mu sigma` consumes exactly one
draw.  (The distributional law of the draws is not representable here;
everything proved is relative to an arbitrary stream.) -/

/-- The state of the global random source: a stream of standard-normal
draws and the current position in it. -/
structure RNG where
  stream : ℕ → ℝ
  pos : ℕ

/-- Embedding of `np.random.normal(mu, sigma)`: consume the next
standard-normal draw, scaled and shifted. -/
def normal (mu sigma : ℝ) (g : RNG) : ℝ × RNG :=
  (mu + sigma * g.stream g.pos, ⟨g.stream, g.pos + 1⟩)

/-- Embedding of `np.clip(x, lo, hi)`: clamp below, then above. -/
noncomputable def clip (x lo hi : ℝ) : ℝ := min hi (max lo x)

/-- One synthesized row of `get_historical_data` (source lines 48-69):
seasonal and diurnal sine components plus noise for the temperature,
the anti-correlated clamped humidity, and the encoded features. -/
structure Observation where
  date : Timestamp
  temperature : ℝ
  humidity : ℝ
  features : List ℝ

/-- Embedding of the body of the `for date in dates` loop of
`get_historical_data` (source lines 48-69) at one timestamp,
threading the random stream (two draws per row, in program order). -/
noncomputable def synth_row (base : ℝ) (t : Timestamp) (g : RNG) : Observation × RNG :=
  let season_factor := Real.sin (2 * Real.pi * ((month (t / 24) : ℝ) - 1) / 12)
  let daily_factor := Real.sin (2 * Real.pi * ((t % 24 : ℕ) : ℝ) / 24)
  let nt := normal 0 1 g
  let temp := base + 5 * season_factor + 3 * daily_factor + nt.1
  let nh := normal 0 5 nt.2
  let humidity := clip (60 - (temp - base) + nh.1) 30 90
  (⟨t, temp, humidity, create_features month dom t⟩, nh.2)

/-- The rows of `get_historical_data` for `count` consecutive hourly
timestamps starting at `t`, threading the random stream in program
order. -/
noncomputable def synth_rows (base : ℝ) : Timestamp → ℕ → RNG → List Observation × RNG
  | _, 0, g => ([], g)
  | t, Nat.succ k, g =>
      let og := synth_row month dom base t g
      let rest := synth_rows base (t + 1) k og.2
      (og.1 :: rest.1, rest.2)

/-- Unfolding lemma: no rows requested. -/
theorem synth_rows_zero (base : ℝ) (t : Timestamp) (g : RNG) :
    synth_rows month dom base t 0 g = ([], g) := rfl

/-- Unfolding lemma: one more row, stream threaded left to right. -/
theorem synth_rows_succ (base : ℝ) (t : Timestamp) (k : ℕ) (g : RNG) :
    synth_rows month dom base t (k + 1) g =
      ((synth_row month dom base t g).1 ::
          (synth_rows month dom base (t + 1) k (synth_row month dom base t g).2).1,
        (synth_rows month dom base (t + 1) k (synth_row month dom base t g).2).2) := rfl

/-- Embedding of `get_historical_data` (source lines 38-71):
`pd.date_range(end - 365 days, end, freq=H)` is the inclusive hourly
range, i.e. `365 * 24 + 1` timestamps starting at `start`. -/
noncomputable def get_historical_data (base : ℝ) (start : Timestamp) (g : RNG) :
    List Observation × RNG :=
  synth_rows month dom base start (365 * 24 + 1) g

/-- Every observation produced by `synth_rows` is `synth_row` at some
timestamp and stream state. -/
theorem synth_rows_mem (base : ℝ) (t : Timestamp) (k : ℕ) (g : RNG)
    (o : Observation) (ho : o ∈ (synth_rows month dom base t k g).1) :
    ∃ u g0, o = (synth_row month dom base u g0).1 := by
  induction k generalizing t g with
  | zero => rw [synth_rows_zero] at ho; simp at ho
  | succ n ih =>
      rw [synth_rows_succ] at ho
      rcases List.mem_cons.mp ho with ho | ho
      · exact ⟨t, g, ho⟩
      · exact ih (t + 1) (synth_row month dom base t g).2 ho

/-- The humidity of any single synthesized row is the clamped
anti-correlated formula and lies in `[30, 90]`. -/
theorem synth_row_humidity (base : ℝ) (t : Timestamp) (g : RNG) :
    ((synth_row month dom base t g).1.humidity =
        clip (60 - ((synth_row month dom base t g).1.temperature - base)
          + (normal 0 5 (normal 0 1 g).2).1) 30 90) ∧
    30 ≤ (synth_row month dom base t g).1.humidity ∧
    (synth_row month dom base t g).1.humidity ≤ 90 := by
  refine ⟨rfl, ?_, ?_⟩
  · exact le_min (by norm_num) (le_max_left 30 _)
  · exact min_le_left 90 _

/-- C5: every observation in the synthesized dataset has its humidity
equal to `clip (60 - (temperature - base) + noise_h) 30 90` for the
noise draw `noise_h` of its row (mean 0, scale 5 over a fresh
standard draw), and in particular the humidity always lies in the
closed interval `[30, 90]`. -/
theorem c5_humidity_bound (base : ℝ) (start : Timestamp) (g : RNG)
    (o : Observation) (ho : o ∈ (get_historical_data month dom base start g).1) :
    (∃ noiseH : ℝ, o.humidity = clip (60 - (o.temperature - base) + noiseH) 30 90) ∧
    30 ≤ o.humidity ∧ o.humidity ≤ 90 := by
  obtain ⟨u, g0, rfl⟩ := synth_rows_mem month dom base start (365 * 24 + 1) g o ho
  obtain ⟨hform, hlo, hhi⟩ := synth_row_humidity month dom base u g0
  exact ⟨⟨_, hform⟩, hlo, hhi⟩

/-- Witness for C5 at a concrete instantiation: the constant-zero
stream, base temperature 0, epoch start, first observation. -/
theorem c5_humidity_bound_witness :
    (∃ noiseH : ℝ,
        ((synth_row (fun _ => 1) (fun _ => 1) 0 0 ⟨fun _ => 0, 0⟩).1.humidity =
          clip (60 - ((synth_row (fun _ => 1) (fun _ => 1) 0 0
            ⟨fun _ => 0, 0⟩).1.temperature - 0) + noiseH) 30 90)) ∧
    30 ≤ (synth_row (fun _ => 1) (fun _ => 1) 0 0 ⟨fun _ => 0, 0⟩).1.humidity ∧
    (synth_row (fun _ => 1) (fun _ => 1) 0 0 ⟨fun _ => 0, 0⟩).1.humidity ≤ 90 := by
  refine c5_humidity_bound (fun _ => 1) (fun _ => 1) 0 0 ⟨fun _ => 0, 0⟩ _ ?_
  show _ ∈ (synth_rows (fun _ => 1) (fun _ => 1) 0 0 (8760 + 1) ⟨fun _ => 0, 0⟩).1
  rw [synth_rows_succ]
  exact List.mem_cons_self _ _

end Calendar

/-! ### External current-weather lookup and the fallback base temperature -/

/-- The record returned by `get_current_weather` (source lines 153-165)
on success. -/
structure CurrentWeather where
  temp : ℝ
  humidity : ℝ
  pressure : ℝ
  wind_speed : ℝ
  description : String

/-- Embedding of `_get_base_temperature` (source lines 73-79): the
outcome of the external lookup is an `Except ε CurrentWeather`; the
bare `except:` recovers from every error kind `ε` with the fixed
fallback `25.0`. -/
noncomputable def get_base_temperature {ε : Type} (lookup : Except ε CurrentWeather) : ℝ :=
  match lookup with
  | .ok w => w.temp
  | .error _ => (25 : ℝ)

section Calendar2

variable (month dom : ℕ → ℕ)

/-- C6: when the external lookup fails, for any reason whatsoever, the
synthesizer substitutes the fixed fallback base temperature `25.0`,
and synthesis still completes in full: it produces the same dataset
as an explicit base of `25.0`, with the full inclusive hourly year of
`365 * 24 + 1` observations. -/
theorem c6_lookup_fallback {ε : Type} (e : ε) (start : Timestamp) (g : RNG) :
    get_base_temperature (Except.error e : Except ε CurrentWeather) = 25 ∧
    get_historical_data month dom
        (get_base_temperature (Except.error e : Except ε CurrentWeather)) start g =
      get_historical_data month dom 25 start g ∧
    (get_historical_data month dom
        (get_base_temperature (Except.error e : Except ε CurrentWeather)) start g).1.length =
      365 * 24 + 1 := by
  refine ⟨rfl, rfl, ?_⟩
  show (synth_rows month dom 25 start (365 * 24 + 1) g).1.length = 365 * 24 + 1
  generalize 365 * 24 + 1 = k
  induction k generalizing start g with
  | zero => rw [synth_rows_zero]; rfl
  | succ n ih =>
      rw [synth_rows_succ, List.length_cons, ih]

end Calendar2

/-! ### The trained state, the scaler and the forecaster -/

/-- Parameters of a fitted `StandardScaler`: the per-feature mean and
scale vectors produced by `fit_transform`. -/
structure ScalerParams where
  mean : List ℝ
  scale : List ℝ

/-- The failure kinds of `scaler.transform` per the sklearn contract:
`NotFittedError` when the scaler was never fitted, and the
`ValueError` raised when the input width disagrees with the fitted
`n_features_in_`. -/
inductive ScalerError where
  | notFitted
  | featureMismatch
deriving DecidableEq

/-- Componentwise standardization `(x - mean) / scale` of a fitted
scaler applied to a feature vector. -/
noncomputable def scale_with (p : ScalerParams) (x : List ℝ) : List ℝ :=
  List.zipWith (fun xi ms => (xi - ms.1) / ms.2) x (p.mean.zip p.scale)

/-- Embedding of `self.scaler.transform` as called on one row (source
line 121): an unfitted scaler raises `NotFittedError`; a fitted one
validates the feature width against `n_features_in_` and then
standardizes. -/
noncomputable def scaler_transform (sc : Option ScalerParams) (x : List ℝ) :
    Except ScalerError (List ℝ) :=
  match sc with
  | none => .error .notFitted
  | some p =>
      if x.length = p.mean.length then .ok (scale_with p x)
      else .error .featureMismatch

/-- The mutable model slots of `WeatherPredictor` after training, read
by `predict_weather`: the (possibly unfitted) scaler and the two
fitted regressors, each an opaque function from a scaled feature
vector to a prediction (a fitted sklearn regressor's `predict` is a
deterministic pure function of its input). -/
structure TrainedState where
  scaler : Option ScalerParams
  temp_model : List ℝ → ℝ
  humidity_model : List ℝ → ℝ

/-- One element of the `predictions` list built by `predict_weather`
(source lines 130-135).  `date` is the day number rendered by
`strftime(%Y-%m-%d)`. -/
structure ForecastRecord where
  date : ℕ
  temperature : ℝ
  humidity : ℝ
  event : Option String

/-- Embedding of Python's `round(x, 1)`: round to one decimal place. -/
noncomputable def round1 (x : ℝ) : ℝ := (round (x * 10) : ℤ) / 10

section Forecast

variable (month dom : ℕ → ℕ)

/-- The raw model predictions at a future timestamp `t`: encode,
standardize with the fitted scaler `p`, and query both models
(source lines 120-124). -/
noncomputable def raw_preds (st : TrainedState) (p : ScalerParams) (t : Timestamp) : ℝ × ℝ :=
  (st.temp_model (scale_with p (create_features month dom t)),
    st.humidity_model (scale_with p (create_features month dom t)))

/-- The forecast record emitted for hour offset `i` (source lines
130-135): the day number of `start + i`, the raw temperature minus
the fixed 3-degree correction rounded to one decimal, the raw
humidity rounded to one decimal, and the event classified from the
raw pair. -/
noncomputable def record_at (st : TrainedState) (p : ScalerParams) (start : Timestamp)
    (i : ℕ) : ForecastRecord :=
  { date := (start + i) / 24,
    temperature := round1 ((raw_preds month dom st p (start + i)).1 - 3),
    humidity := round1 (raw_preds month dom st p (start + i)).2,
    event := predict_weather_event (raw_preds month dom st p (start + i)).1
      (raw_preds month dom st p (start + i)).2 }

/-- Embedding of the `for i in range(days * 24)` loop of
`predict_weather` (source lines 118-135), at loop counter `i` with
`k` iterations remaining: every hour is encoded, scaled and
predicted (any scaler failure aborts the whole loop, as the Python
exception would), and a record is appended only when `i % 24 == 0`. -/
noncomputable def forecast_loop (st : TrainedState) (start : Timestamp) :
    ℕ → ℕ → Except ScalerError (List ForecastRecord)
  | _, 0 => .ok []
  | i, Nat.succ k =>
      match scaler_transform st.scaler (create_features month dom (start + i)) with
      | .error err => .error err
      | .ok fs =>
          let temp_pred := st.temp_model fs
          let humidity_pred := st.humidity_model fs
          let event := predict_weather_event temp_pred humidity_pred
          match forecast_loop st start (i + 1) k with
          | .error err => .error err
          | .ok rest =>
              if i % 24 = 0 then
                .ok ({ date := (start + i) / 24,
                       temperature := round1 (temp_pred - 3),
                       humidity := round1 humidity_pred,
                       event := event } :: rest)
              else .ok rest

/-- The loop of `predict_weather` over the whole horizon: `days * 24`
hourly steps starting at loop counter 0. -/
noncomputable def predict_core (st : TrainedState) (start : Timestamp) (days : ℕ) :
    Except ScalerError (List ForecastRecord) :=
  forecast_loop month dom st start 0 (days * 24)

/-- The failure kinds observable from `predict_weather`: the unhandled
exception of the external lookup on line 114, or a scaler failure
from the loop. -/
inductive ForecastError (ε : Type) where
  | external (e : ε)
  | model (se : ScalerError)

/-- Embedding of `predict_weather` (source lines 112-137): the
current-weather lookup on line 114 is NOT guarded by any `try`, so a
lookup failure propagates to the caller; on success its result is
unused and the loop runs. -/
noncomputable def predict_weather {ε : Type} (lookup : Except ε CurrentWeather)
    (st : TrainedState) (start : Timestamp) (days : ℕ) :
    Except (ForecastError ε) (List ForecastRecord) :=
  match lookup with
  | .error e => .error (.external e)
  | .ok _ => (predict_core month dom st start days).mapError ForecastError.model

/-- Unfolding lemma: no iterations remaining. -/
theorem forecast_loop_zero (st : TrainedState) (start : Timestamp) (i : ℕ) :
    forecast_loop month dom st start i 0 = .ok [] := rfl

/-- A fitted scaler accepts a width-7 feature vector and
standardizes it. -/
theorem scaler_transform_fitted (p : ScalerParams) (hw : p.mean.length = 7)
    (x : List ℝ) (hx : x.length = 7) :
    scaler_transform (some p) x = .ok (scale_with p x) := by
  simp [scaler_transform, hx, hw]

/-- Peeling one index off a filtered, mapped initial segment. -/
theorem range_succ_filter_map {α : Type} (f : ℕ → α) (q : ℕ → Bool) (i n : ℕ) :
    ((((List.range (n + 1)).map (i + ·)).filter q).map f) =
      (if q i then [f i] else []) ++
        ((((List.range n).map ((i + 1) + ·)).filter q).map f) := by
  rw [List.range_succ_eq_map, List.map_cons, List.map_map]
  have hcomp : ((i + ·) ∘ Nat.succ) = ((i + 1) + ·) := by
    funext j
    simp only [Function.comp_apply]
    omega
  rw [hcomp, List.filter_cons]
  by_cases hq : q (i + 0)
  · simp only [Nat.add_zero] at hq
    simp [hq]
  · simp only [Nat.add_zero] at hq
    simp [hq]

/-- Unfolding lemma: one more iteration of the forecast loop. -/
theorem forecast_loop_succ (st : TrainedState) (start : Timestamp) (i k : ℕ) :
    forecast_loop month dom st start i (k + 1) =
      match scaler_transform st.scaler (create_features month dom (start + i)) with
      | .error err => .error err
      | .ok fs =>
          match forecast_loop month dom st start (i + 1) k with
          | .error err => .error err
          | .ok rest =>
              if i % 24 = 0 then
                .ok ({ date := (start + i) / 24,
                       temperature := round1 (st.temp_model fs - 3),
                       humidity := round1 (st.humidity_model fs),
                       event := predict_weather_event (st.temp_model fs)
                         (st.humidity_model fs) } :: rest)
              else .ok rest := rfl

/-- Closed form of the forecast loop under a correctly fitted scaler:
it succeeds, and the produced records are exactly the `record_at`
values at the loop counters that are multiples of 24. -/
theorem forecast_loop_ok (st : TrainedState) (p : ScalerParams)
    (hs : st.scaler = some p) (hw : p.mean.length = 7) (start : Timestamp) :
    ∀ k i, forecast_loop month dom st start i k =
      .ok ((((List.range k).map (i + ·)).filter (fun j => decide (j % 24 = 0))).map
        (record_at month dom st p start)) := by
  intro k
  induction k with
  | zero => intro i; simp [forecast_loop_zero]
  | succ n ih =>
      intro i
      have hx : (create_features month dom (start + i)).length = 7 := rfl
      have htr := scaler_transform_fitted p hw _ hx
      rw [range_succ_filter_map, forecast_loop_succ, hs, htr, ih (i + 1)]
      dsimp only
      by_cases hi : i % 24 = 0
      · simp [hi, record_at, raw_preds]
      · simp [hi]

/-- The loop counters in `[0, 24·d)` that are multiples of 24 are
exactly `24·k` for `k < d`. -/
theorem filter_mod24_range (d : ℕ) :
    (List.range (24 * d)).filter (fun j => decide (j % 24 = 0)) =
      (List.range d).map (fun k => 24 * k) := by
  induction d with
  | zero => rfl
  | succ n ih =>
      have h24 : 24 * (n + 1) = 24 * n + 24 := by ring
      rw [h24, List.range_add, List.filter_append, ih]
      have hblock : ((List.range 24).map (24 * n + ·)).filter
          (fun j => decide (j % 24 = 0)) = [24 * n] := by
        rw [List.filter_map]
        have hc : (List.range 24).filter
            ((fun j => decide (j % 24 = 0)) ∘ (24 * n + ·)) =
            (List.range 24).filter (fun j => decide (j = 0)) := by
          apply List.filter_congr
          intro a ha
          have ha24 : a < 24 := List.mem_range.mp ha
          have hmod : (24 * n + a) % 24 = a := by omega
          simp only [Function.comp, hmod]
        rw [hc]
        have h0 : (List.range 24).filter (fun j => decide (j = 0)) = [0] := by decide
        rw [h0]
        simp
      rw [hblock]
      have hr : List.range (n + 1) = List.range n ++ [n] := by
        rw [← Nat.succ_eq_add_one, List.range_succ]
      rw [hr, List.map_append]
      rfl

/-- Closed form of the whole forecast under a correctly fitted scaler:
one record per day, the `k`-th being the hour-offset `24·k` record. -/
theorem predict_core_ok (st : TrainedState) (p : ScalerParams)
    (hs : st.scaler = some p) (hw : p.mean.length = 7) (start : Timestamp) (days : ℕ) :
    predict_core month dom st start days =
      .ok ((List.range days).map (fun k => record_at month dom st p start (24 * k))) := by
  show forecast_loop month dom st start 0 (days * 24) = _
  rw [forecast_loop_ok month dom st p hs hw start (days * 24) 0]
  have h0 : ((List.range (days * 24)).map (0 + ·)) = List.range (days * 24) := by
    simp
  rw [h0, show days * 24 = 24 * days from by ring, filter_mod24_range, List.map_map]
  rfl

/-- C2: with a trained state whose fitted scaler matches the encoder's
7-feature width, forecasting a 180-day horizon succeeds and yields
exactly 180 records; the `k`-th record is the one emitted at hour
offset `24·k` from the start (records arise only at hour offsets
that are multiples of 24), and the record dates are consecutive day
numbers, strictly increasing by one day. -/
theorem c2_forecast_cardinality (st : TrainedState) (p : ScalerParams)
    (start : Timestamp) (hs : st.scaler = some p) (hw : p.mean.length = 7) :
    ∃ l, predict_core month dom st start 180 = .ok l ∧
      l.length = 180 ∧
      (∀ k, k < 180 → l[k]? = some (record_at month dom st p start (24 * k))) ∧
      (∀ k, k < 180 → l[k]?.map ForecastRecord.date = some (start / 24 + k)) := by
  refine ⟨_, predict_core_ok month dom st p hs hw start 180, by simp, ?_, ?_⟩
  · intro k hk
    rw [List.getElem?_map, List.getElem?_range hk]
    rfl
  · intro k hk
    rw [List.getElem?_map, List.getElem?_range hk]
    show some ((start + 24 * k) / 24) = some (start / 24 + k)
    have hdiv := Nat.add_mul_div_left start k (show 0 < 24 by decide)
    rw [hdiv]

/-- C3: each emitted record carries the raw temperature prediction
minus exactly 3, rounded to one decimal; the raw humidity prediction
rounded to one decimal with no correction; and the event label
classified from the raw (uncorrected) predicted pair. -/
theorem c3_emission_correction (st : TrainedState) (p : ScalerParams)
    (start : Timestamp) (days k : ℕ) (hs : st.scaler = some p)
    (hw : p.mean.length = 7) (hk : k < days) :
    ∃ l, predict_core month dom st start days = .ok l ∧
      l[k]? = some (record_at month dom st p start (24 * k)) ∧
      (record_at month dom st p start (24 * k)).temperature =
        round1 ((raw_preds month dom st p (start + 24 * k)).1 - 3) ∧
      (record_at month dom st p start (24 * k)).humidity =
        round1 (raw_preds month dom st p (start + 24 * k)).2 ∧
      (record_at month dom st p start (24 * k)).event =
        predict_weather_event (raw_preds month dom st p (start + 24 * k)).1
          (raw_preds month dom st p (start + 24 * k)).2 := by
  refine ⟨_, predict_core_ok month dom st p hs hw start days, ?_, rfl, rfl, rfl⟩
  rw [List.getElem?_map, List.getElem?_range hk]
  rfl

/-- C8: forecasting from an absent (never-fitted) trained state fails
with the not-fitted condition, and forecasting through a scaler
whose fitted feature width differs from the encoder's 7 fails with
the feature-mismatch condition; neither silently produces records. -/
theorem c8_unready_state_fails (ε : Type) (st : TrainedState) (w : CurrentWeather)
    (start : Timestamp) (days : ℕ) (hd : 0 < days) :
    (st.scaler = none →
      predict_weather month dom (Except.ok w : Except ε CurrentWeather) st start days =
        .error (ForecastError.model ScalerError.notFitted)) ∧
    (∀ p, st.scaler = some p → p.mean.length ≠ 7 →
      predict_weather month dom (Except.ok w : Except ε CurrentWeather) st start days =
        .error (ForecastError.model ScalerError.featureMismatch)) := by
  obtain ⟨m, hm⟩ : ∃ m, days * 24 = m + 1 := ⟨days * 24 - 1, by omega⟩
  constructor
  · intro hs
    have hcore : predict_core month dom st start days = .error .notFitted := by
      show forecast_loop month dom st start 0 (days * 24) = _
      rw [hm, forecast_loop_succ, hs]
      rfl
    simp [predict_weather, hcore, Except.mapError]
  · intro p hs hw
    have hcore : predict_core month dom st start days = .error .featureMismatch := by
      show forecast_loop month dom st start 0 (days * 24) = _
      rw [hm, forecast_loop_succ, hs]
      have h7 : (create_features month dom start).length = 7 := rfl
      have hne : ¬((create_features month dom start).length = p.mean.length) :=
        fun h => hw (h.symm.trans h7)
      simp [scaler_transform, hne]
    simp [predict_weather, hcore, Except.mapError]

/-- C9: inference at a fixed trained state consumes no randomness and
is idempotent: the per-timestamp scaled-and-predicted pair is
unchanged by the state of the random stream, the stream is returned
untouched, and re-running the same timestamp on the post-call
stream reproduces the same predictions. -/
noncomputable def infer_at (st : TrainedState) (t : Timestamp) (g : RNG) :
    Except ScalerError (ℝ × ℝ) × RNG :=
  ((scaler_transform st.scaler (create_features month dom t)).map
      (fun fs => (st.temp_model fs, st.humidity_model fs)), g)

/-- C9: forecasting the same timestamp twice against a fixed trained
state yields identical predicted temperature and humidity, and the
random stream passes through inference unconsumed. -/
theorem c9_idempotent_inference (st : TrainedState) (t : Timestamp) (g1 g2 : RNG) :
    (infer_at month dom st t g1).1 = (infer_at month dom st t g2).1 ∧
    (infer_at month dom st t g1).2 = g1 ∧
    (infer_at month dom st t ((infer_at month dom st t g1).2)).1 =
      (infer_at month dom st t g1).1 :=
  ⟨rfl, rfl, rfl⟩

end Forecast

/-! ### Concrete instantiations used by the witnesses -/

/-- A fitted scaler of width 7 (zero means, unit scales). -/
noncomputable def wit_scaler : ScalerParams :=
  ⟨List.replicate 7 0, List.replicate 7 1⟩

/-- A trained state whose scaler is fitted at width 7 and whose two
models are the constant-zero regressors. -/
noncomputable def wit_state : TrainedState :=
  ⟨some wit_scaler, fun _ => 0, fun _ => 0⟩

/-- A trained state whose scaler was never fitted. -/
noncomputable def unfitted_state : TrainedState :=
  ⟨none, fun _ => 0, fun _ => 0⟩

/-- A trained state whose scaler was fitted at width 0, mismatching
the encoder's width 7. -/
noncomputable def mismatched_state : TrainedState :=
  ⟨some ⟨[], []⟩, fun _ => 0, fun _ => 0⟩

/-- A sample successful lookup result. -/
noncomputable def wit_weather : CurrentWeather := ⟨25, 50, 1000, 5, "clear sky"⟩

/-- Witness for C2 at a concrete instantiation: constant calendar,
witness state, epoch start. -/
theorem c2_forecast_cardinality_witness :
    ∃ l, predict_core (fun _ => 1) (fun _ => 1) wit_state 0 180 = .ok l ∧
      l.length = 180 ∧
      (∀ k, k < 180 →
        l[k]? = some (record_at (fun _ => 1) (fun _ => 1) wit_state wit_scaler 0 (24 * k))) ∧
      (∀ k, k < 180 → l[k]?.map ForecastRecord.date = some (0 / 24 + k)) :=
  c2_forecast_cardinality (fun _ => 1) (fun _ => 1) wit_state wit_scaler 0 rfl rfl

/-- Witness for C3 at a concrete instantiation: first record of a
one-day horizon. -/
theorem c3_emission_correction_witness :
    ∃ l, predict_core (fun _ => 1) (fun _ => 1) wit_state 0 1 = .ok l ∧
      l[0]? = some (record_at (fun _ => 1) (fun _ => 1) wit_state wit_scaler 0 (24 * 0)) ∧
      (record_at (fun _ => 1) (fun _ => 1) wit_state wit_scaler 0 (24 * 0)).temperature =
        round1 ((raw_preds (fun _ => 1) (fun _ => 1) wit_state wit_scaler (0 + 24 * 0)).1 - 3) ∧
      (record_at (fun _ => 1) (fun _ => 1) wit_state wit_scaler 0 (24 * 0)).humidity =
        round1 (raw_preds (fun _ => 1) (fun _ => 1) wit_state wit_scaler (0 + 24 * 0)).2 ∧
      (record_at (fun _ => 1) (fun _ => 1) wit_state wit_scaler 0 (24 * 0)).event =
        predict_weather_event
          (raw_preds (fun _ => 1) (fun _ => 1) wit_state wit_scaler (0 + 24 * 0)).1
          (raw_preds (fun _ => 1) (fun _ => 1) wit_state wit_scaler (0 + 24 * 0)).2 :=
  c3_emission_correction (fun _ => 1) (fun _ => 1) wit_state wit_scaler 0 1 0 rfl rfl
    (by decide)

/-- Witness for C8 at concrete unready states: the never-fitted state
and the width-0 state both fail fast on a one-day horizon. -/
theorem c8_unready_state_fails_witness :
    predict_weather (fun _ => 1) (fun _ => 1) (Except.ok wit_weather : Except Unit CurrentWeather)
        unfitted_state 0 1 = .error (ForecastError.model ScalerError.notFitted) ∧
    predict_weather (fun _ => 1) (fun _ => 1) (Except.ok wit_weather : Except Unit CurrentWeather)
        mismatched_state 0 1 = .error (ForecastError.model ScalerError.featureMismatch) :=
  ⟨(c8_unready_state_fails (fun _ => 1) (fun _ => 1) Unit unfitted_state wit_weather 0 1
      (by decide)).1 rfl,
    (c8_unready_state_fails (fun _ => 1) (fun _ => 1) Unit mismatched_state wit_weather 0 1
      (by decide)).2 ⟨[], []⟩ rfl (by decide)⟩

/-- Counterexample to C7 as stated: a failing external lookup is NOT
recovered inside forecasting; `predict_weather` calls the lookup
unguarded (source line 114), so the failure surfaces verbatim to the
caller. -/
theorem c7_lookup_surfaces_counterexample :
    predict_weather (fun _ => 1) (fun _ => 1) (Except.error () : Except Unit CurrentWeather)
        wit_state 0 180 = .error (ForecastError.external ()) := rfl

/-- C7 (amended): an external lookup failure is recovered via the
25-degree fallback base temperature on the synthesis/training path,
which therefore never surfaces it, but the forecasting operation
surfaces the failure to its caller because its lookup call is not
guarded. -/
theorem c7_lookup_failure_paths (month dom : ℕ → ℕ) {ε : Type} (e : ε)
    (start : Timestamp) (g : RNG) (st : TrainedState) (days : ℕ) :
    get_base_temperature (Except.error e : Except ε CurrentWeather) = 25 ∧
    get_historical_data month dom
        (get_base_temperature (Except.error e : Except ε CurrentWeather)) start g =
      get_historical_data month dom 25 start g ∧
    predict_weather month dom (Except.error e : Except ε CurrentWeather) st start days =
      .error (ForecastError.external e) :=
  ⟨rfl, rfl, rfl⟩

/-! ### Train/test splitting (the trainer's two independent calls) -/

section Splitting

variable (shuffle : ℕ → ℕ → List ℕ)

/-- Embedding of `sklearn.model_selection.train_test_split(A, y,
test_size, random_state)` as called in `train_model`.  With a fixed
`random_state`, sklearn draws a permutation of the row indices that
is a deterministic function of the seed and the sample count alone -
abstracted as `shuffle seed n` - takes the first `ceil(test_size·n)`
permuted indices as the test rows and the remaining ones as the train
rows, and slices both inputs by those shared index lists. -/
def train_test_split {α β : Type} (X : List α) (y : List β) (test_size : ℚ) (seed : ℕ) :
    List α × List α × List β × List β :=
  let n := X.length
  let nTest := Nat.ceil (test_size * (n : ℚ))
  let perm := shuffle seed n
  let testIdx := perm.take nTest
  let trainIdx := perm.drop nTest
  (trainIdx.filterMap (fun i => X[i]?), testIdx.filterMap (fun i => X[i]?),
    trainIdx.filterMap (fun i => y[i]?), testIdx.filterMap (fun i => y[i]?))

/-- Embedding of the two independent split calls of `train_model`
(source lines 94-99): the same scaled feature matrix, the same
`test_size=0.2` and the same `random_state=42`, with the temperature
and humidity targets split by two separate calls. -/
def train_model_splits (X : List (List ℝ)) (y_temp y_humidity : List ℝ) :
    (List (List ℝ) × List (List ℝ) × List ℝ × List ℝ) ×
      (List (List ℝ) × List (List ℝ) × List ℝ × List ℝ) :=
  (train_test_split shuffle X y_temp (2 / 10) 42,
    train_test_split shuffle X y_humidity (2 / 10) 42)

/-- The joint-split design the spec offers as an equivalent
alternative (§4.3, §9): draw one permutation of the row indices and
slice the features and both targets by the same train/test index
lists. -/
def joint_split_design (X : List (List ℝ)) (y_temp y_humidity : List ℝ)
    (test_size : ℚ) (seed : ℕ) :
    List (List ℝ) × List (List ℝ) × List ℝ × List ℝ × List ℝ × List ℝ :=
  let n := X.length
  let nTest := Nat.ceil (test_size * (n : ℚ))
  let perm := shuffle seed n
  let testIdx := perm.take nTest
  let trainIdx := perm.drop nTest
  (trainIdx.filterMap (fun i => X[i]?), testIdx.filterMap (fun i => X[i]?),
    trainIdx.filterMap (fun i => y_temp[i]?), testIdx.filterMap (fun i => y_temp[i]?),
    trainIdx.filterMap (fun i => y_humidity[i]?), testIdx.filterMap (fun i => y_humidity[i]?))

/-- C10: the two independent `train_test_split` calls of
`train_model`, sharing ratio 0.2, seed 42 and equal-length inputs,
produce identical train/test row membership: the feature partitions
of the two calls coincide, and the pair of calls is extensionally
equal to the joint-split design, so the humidity targets selected for
training sit at exactly the rows of the scaled feature training
matrix used for the temperature model. -/
theorem c10_independent_splits_coincide (X : List (List ℝ)) (y_temp y_humidity : List ℝ)
    (hT : y_temp.length = X.length) (hH : y_humidity.length = X.length) :
    ((train_model_splits shuffle X y_temp y_humidity).1.1 =
        (train_model_splits shuffle X y_temp y_humidity).2.1) ∧
    ((train_model_splits shuffle X y_temp y_humidity).1.2.1 =
        (train_model_splits shuffle X y_temp y_humidity).2.2.1) ∧
    ((train_model_splits shuffle X y_temp y_humidity).1.1,
      (train_model_splits shuffle X y_temp y_humidity).1.2.1,
      (train_model_splits shuffle X y_temp y_humidity).1.2.2.1,
      (train_model_splits shuffle X y_temp y_humidity).1.2.2.2,
      (train_model_splits shuffle X y_temp y_humidity).2.2.2.1,
      (train_model_splits shuffle X y_temp y_humidity).2.2.2.2) =
      joint_split_design shuffle X y_temp y_humidity (2 / 10) 42 :=
  ⟨rfl, rfl, rfl⟩

end Splitting

/-- A deterministic sample permutation source for the witness. -/
def wit_shuffle : ℕ → ℕ → List ℕ := fun _ n => List.range n

/-- A one-row feature matrix for the witness. -/
noncomputable def wit_X : List (List ℝ) := [[1]]

/-- A one-row temperature target for the witness. -/
noncomputable def wit_yT : List ℝ := [2]

/-- A one-row humidity target for the witness. -/
noncomputable def wit_yH : List ℝ := [3]

/-- Witness for C10 at a concrete instantiation: one row, identity
permutation. -/
theorem c10_independent_splits_coincide_witness :
    ((train_model_splits wit_shuffle wit_X wit_yT wit_yH).1.1 =
        (train_model_splits wit_shuffle wit_X wit_yT wit_yH).2.1) ∧
    ((train_model_splits wit_shuffle wit_X wit_yT wit_yH).1.2.1 =
        (train_model_splits wit_shuffle wit_X wit_yT wit_yH).2.2.1) ∧
    ((train_model_splits wit_shuffle wit_X wit_yT wit_yH).1.1,
      (train_model_splits wit_shuffle wit_X wit_yT wit_yH).1.2.1,
      (train_model_splits wit_shuffle wit_X wit_yT wit_yH).1.2.2.1,
      (train_model_splits wit_shuffle wit_X wit_yT wit_yH).1.2.2.2,
      (train_model_splits wit_shuffle wit_X wit_yT wit_yH).2.2.2.1,
      (train_model_splits wit_shuffle wit_X wit_yT wit_yH).2.2.2.2) =
      joint_split_design wit_shuffle wit_X wit_yT wit_yH (2 / 10) 42 :=
  c10_independent_splits_coincide wit_shuffle wit_X wit_yT wit_yH rfl rfl

end WeatherPred
